import Mathlib

/-!
Verification of the adaptive-tutoring decision core of the Q-A repository.

Shallow embedding of:
- `backend/app/services/rl_agent.py` (`load_model`, `get_next_action`),
- `backend/app/services/graph_service.py` (`get_mastery_bottleneck`,
  `get_local_graph_state_topics`),
- `backend/app/routers/learning.py` (`update_bkt`, the grading-parse block,
  the topic-selection block and the next-action decision of `submit_answer`).

Python floats are embedded as `ℚ` (the constants of the code are exact
decimals), Python dict results as association lists of string keys, external
collaborators (Neo4j queries, the PPO artifact, the Gemini grader, the RNG)
as explicit parameters recording their outcome.
-/

/-- A value stored in one of the Python dicts built by `rl_agent.get_next_action`
(string- or int-valued entries only). -/
inductive DVal where
  | str (s : String)
  | num (n : ℤ)
deriving DecidableEq

/-- Python `d.get(k)` / `d[k]` lookup on an association-list model of a dict
whose keys are unique (first match wins). -/
def dictLookup (d : List (String × DVal)) (k : String) : Option DVal :=
  (d.find? (fun kv => kv.1 == k)).map (fun kv => kv.2)

/-- Python `d.get(k, default)` where the caller uses the value as an int
(`action.get("topic_index", 0)` in `learning.py`).  A string-valued hit maps to
the default; the dicts this code builds never store a string under an
int-consumed key. -/
def dictGetInt (d : List (String × DVal)) (k : String) (dflt : ℤ) : ℤ :=
  match dictLookup d k with
  | some (.num n) => n
  | some (.str _) => dflt
  | none => dflt

/-- `diff_map = {0: "Easy", 1: "Medium", 2: "Hard"}` of `rl_agent.py`. -/
def diff_map (i : ℤ) : Option String :=
  if i = 0 then some "Easy"
  else if i = 1 then some "Medium"
  else if i = 2 then some "Hard"
  else none

/-- `rl_agent.get_next_action(student_state)`.

`modelLoaded` records whether `load_model()` returned a (truthy) model,
`predictOut` the integer the PPO model's `predict` produced on the model path,
`rng` the outcome of `random.randint(0, 2)` on the fallback path.

Fallback path (model missing or state not of length 9): one bucket is drawn,
`difficulty = diff_map[bucket]` (the `KeyError` branch of the subscript is
unreachable since `bucket ∈ {0,1,2}`, hence the defaulted lookup).
Model path: `bucket_idx = int(action_raw)`, `difficulty =
diff_map.get(bucket_idx, "Medium")`, `raw_action = bucket_idx`. -/
def get_next_action (modelLoaded : Bool) (predictOut : ℤ) (student_state : List ℚ)
    (rng : Fin 3) : List (String × DVal) :=
  if modelLoaded = false ∨ student_state.length ≠ 9 then
    [("action_type", DVal.str "bucket_selection_fallback"),
     ("bucket_index", DVal.num rng.val),
     ("difficulty", DVal.str ((diff_map rng.val).getD "Medium")),
     ("raw_action", DVal.num rng.val)]
  else
    [("action_type", DVal.str "bucket_selection"),
     ("bucket_index", DVal.num predictOut),
     ("difficulty", DVal.str ((diff_map predictOut).getD "Medium")),
     ("raw_action", DVal.num predictOut)]

/-- Outcome of one `load_model()` environment probe: the artifact file loads to
a model (abstract handle `ℕ`), `PPO.load` raises, or the file is absent. -/
inductive LoadOutcome where
  | success (m : ℕ)
  | failure
  | missing
deriving DecidableEq

/-- `rl_agent.load_model()` as a transition on the module-global `_model`
cache (`Option ℕ`): returns the new cache plus a flag recording whether this
call performed a load attempt (entered the `if _model is None` body).  On
`failure`/`missing` the exception/log path leaves `_model = None`. -/
def load_model (st : Option ℕ) (env : LoadOutcome) : Option ℕ × Bool :=
  match st with
  | some m => (some m, false)
  | none =>
    match env with
    | .success m => (some m, true)
    | .failure => (none, true)
    | .missing => (none, true)

/-- `PAD_NAME = "Padding_Topic"` of `learning.py`. -/
def PAD_NAME : String := "Padding_Topic"

/-- The `while len(local_topics) < 9: local_topics.append(PAD_NAME)` padding
loop of `learning.py`. -/
def padTo9 (local_topics : List String) : List String :=
  local_topics ++ List.replicate (9 - local_topics.length) PAD_NAME

/-- The duplicate-removal loop of `get_local_graph_state_topics`
(`for t in state_topics: if t not in unique_topics: unique_topics.append(t)`),
with `acc` the `unique_topics` accumulator. -/
def dedupLoop (acc : List String) : List String → List String
  | [] => acc
  | t :: rest => if t ∈ acc then dedupLoop acc rest else dedupLoop (acc ++ [t]) rest

/-- `graph_service.get_local_graph_state_topics(subject, anchor_topic)`.

`driverOk` records `self.driver` being truthy, `queryOk` that the two Neo4j
queries did not raise (the `except` branch returns `[anchor_topic]`),
`prereqs`/`postreqs` the up-to-4 names each query returned.  The body builds
`[anchor] + prereqs + postreqs`, removes duplicates keeping first occurrences,
and truncates to 9. -/
def get_local_graph_state_topics (driverOk queryOk : Bool)
    (prereqs postreqs : List String) (anchor_topic : String) : List String :=
  if driverOk = false then [anchor_topic]
  else if queryOk = false then [anchor_topic]
  else (dedupLoop [] ([anchor_topic] ++ prereqs ++ postreqs)).take 9

/-- Python `str.lower()` (ASCII case folding, character by character; the
topic names this system handles are ASCII).  Written over `String.mk` /
`List.map` so that it evaluates inside the kernel. -/
def pyLower (s : String) : String := String.mk (s.data.map Char.toLower)

/-- Python `d.get(k)` on an association list standing for a dict built by a
comprehension: the comprehension's later bindings overwrite earlier ones, so
the last matching pair wins. -/
def dictLookupQ (m : List (String × ℚ)) (k : String) : Option ℚ :=
  (m.reverse.find? (fun kv => kv.1 == k)).map (fun kv => kv.2)

/-- The scan loop of `get_mastery_bottleneck`
(`for p in prereqs: m = lower_mastery_map.get(p.lower(), 0.1); if m < 0.6: return p`). -/
def bottleneckLoop (lower_mastery_map : List (String × ℚ)) : List String → Option String
  | [] => none
  | p :: rest =>
    if (dictLookupQ lower_mastery_map (pyLower p)).getD 0.1 < 0.6 then some p
    else bottleneckLoop lower_mastery_map rest

/-- `graph_service.get_mastery_bottleneck(student_id, topic_name, subject, db)`.

`driverOk` records `self.driver` being truthy; `prereqs` is what
`get_prerequisites` returned and `mastery_map` what
`db_module.get_student_progress` returned — both external stores.  The body
lowercases the mastery map's keys (`{k.lower(): v for k, v in ...}`) and
returns the first prerequisite whose mastery, defaulted to 0.1, is below 0.6. -/
def get_mastery_bottleneck (driverOk : Bool) (prereqs : List String)
    (mastery_map : List (String × ℚ)) : Option String :=
  if driverOk = false then none
  else if prereqs.isEmpty then none
  else
    bottleneckLoop (mastery_map.map (fun kv => (pyLower kv.1, kv.2))) prereqs

/-- `learning.update_bkt(mastery, score)`. -/
def update_bkt (mastery score : ℚ) : ℚ :=
  let alpha : ℚ := 0.25
  let new_mastery := mastery + alpha * (score - mastery)
  min (max new_mastery 0.05) 0.95

-- Concrete checks of the embedding (spec examples).
example : update_bkt 0.5 0.2 = 0.425 := by
  norm_num [update_bkt, min_def, max_def]

example : get_mastery_bottleneck true ["A", "B"] [("A", 0.8), ("B", 0.3)] = some "B" := by
  have hA : pyLower "A" = "a" := by decide
  have hB : pyLower "B" = "b" := by decide
  simp [get_mastery_bottleneck, bottleneckLoop, dictLookupQ, hA, hB]
  norm_num

example : get_mastery_bottleneck true ["A"] [("A", 0.9)] = none := by
  have hA : pyLower "A" = "a" := by decide
  simp [get_mastery_bottleneck, bottleneckLoop, dictLookupQ, hA]
  norm_num

/-- The condition of the fallback branch of `get_next_action`
(`if not model or len(student_state) != 9`). -/
def fallbackTriggered (modelLoaded : Bool) (student_state : List ℚ) : Prop :=
  modelLoaded = false ∨ student_state.length ≠ 9

/-- The JSON-parse outcome of the grading collaborator's response in
`submit_answer`: `json.loads(clean_text)` yields a dict (whose optional
`"score"` entry is float-convertible and whose optional `"feedback"` entry is
a string), yields a non-dict value (the explicit `raise ValueError`), or the
try block raises (`json.loads` failing, or `float(...)` on a non-numeric
score — both land in the same `except` handler). -/
inductive GradeParse where
  | dict (score : Option ℚ) (feedback : Option String)
  | nonDict
  | parseError

/-- Python `needle in hay` on character lists (substring containment). -/
def substrCheck (needle : List Char) : List Char → Bool
  | [] => needle.isEmpty
  | c :: rest => needle.isPrefixOf (c :: rest) || substrCheck needle rest

/-- The `"correct" in clean_text.lower()` test of the grading fallback. -/
def containsCorrect (clean_text : String) : Bool :=
  substrCheck "correct".data (pyLower clean_text).data

/-- The grading block of `submit_answer` (lines 200–225 of `learning.py`):
from the parse outcome and the cleaned response text, produce
`(score, feedback, correct)`.  Dict path: `raw_score = float(data.get("score",
0.0))`, normalized by `/10` when `> 1.0`; `feedback = data.get("feedback",
"")`; `correct = score >= 0.6`.  Any parse failure falls to the `except`
block: score `0.8` and `correct = True` when the lowered text contains
`"correct"`, else score `0.4`; either way `feedback = clean_text` and the
session continues (`correct` keeps its initializer `False`). -/
def gradeResult (p : GradeParse) (clean_text : String) : ℚ × String × Bool :=
  match p with
  | .dict sc fb =>
    let raw_score := sc.getD 0
    let score := if raw_score > 1 then raw_score / 10 else raw_score
    (score, fb.getD "", decide (score ≥ 0.6))
  | .nonDict =>
    if containsCorrect clean_text then (0.8, clean_text, true)
    else (0.4, clean_text, false)
  | .parseError =>
    if containsCorrect clean_text then (0.8, clean_text, true)
    else (0.4, clean_text, false)

/-- The topic-selection block shared by `start_session` (lines 121–129) and
`submit_answer` (lines 329–336): read `action.get("topic_index", 0)`, and use
`local_topics[action_idx]` when the index is in `[0, 9)` and does not hit the
padding sentinel, else fall back to the anchor.  `local_topics` is the padded
window, so it has at least 9 entries and the guarded access is in bounds (the
`getD` default is never read under the guard). -/
def selectTopic (action : List (String × DVal)) (local_topics : List String)
    (anchor : String) : String :=
  let action_idx : ℤ := dictGetInt action "topic_index" 0
  if 0 ≤ action_idx ∧ action_idx < 9 ∧ local_topics.getD action_idx.toNat "" ≠ PAD_NAME
  then local_topics.getD action_idx.toNat ""
  else anchor

/-- Outcome of the `NextActionDecision` step of `submit_answer`: either the
remediation override (with its forced difficulty) or a normal consultation of
the Policy Agent on the window recomputed around the given anchor. -/
inductive NextStep where
  | remediate (topic : String) (difficulty : String)
  | consultPolicy (anchor : String)
deriving DecidableEq

/-- The next-action control flow of `submit_answer` (lines 262–338):
when `correct` is false, look up the bottleneck (`bottleneck` holds what
`get_mastery_bottleneck` returned; a raised lookup is caught and acts as
`none`); a truthy result (Python: non-`None` and non-empty) becomes
`next_topic_name` with `next_diff = "Easy"`; otherwise
(`if not next_topic_name`) the Policy Agent is consulted on the window
around `topic_key`, the just-attempted topic. -/
def nextActionDecision (correct : Bool) (bottleneck : Option String)
    (topic_key : String) : NextStep :=
  let next_topic_name : Option String :=
    if correct = false then
      match bottleneck with
      | some b => if b ≠ "" then some b else none
      | none => none
    else none
  match next_topic_name with
  | some t => NextStep.remediate t "Easy"
  | none => NextStep.consultPolicy topic_key

/-! ### Helper lemmas -/

/-- Neither branch of `get_next_action` puts a `"topic_index"` key in the
returned dict. -/
lemma get_next_action_topic_index_none (ml : Bool) (pr : ℤ) (obs : List ℚ)
    (rng : Fin 3) :
    dictLookup (get_next_action ml pr obs rng) "topic_index" = none := by
  unfold get_next_action
  split <;> rfl

/-- The dedup loop only ever appends to its accumulator. -/
lemma dedupLoop_extends (l : List String) :
    ∀ acc, ∃ s, dedupLoop acc l = acc ++ s := by
  induction l with
  | nil => exact fun acc => ⟨[], by simp [dedupLoop]⟩
  | cons t rest ih =>
    intro acc
    by_cases h : t ∈ acc
    · obtain ⟨s, hs⟩ := ih acc
      exact ⟨s, by simp [dedupLoop, h, hs]⟩
    · obtain ⟨s, hs⟩ := ih (acc ++ [t])
      exact ⟨[t] ++ s, by simp [dedupLoop, h, hs]⟩

/-- The dedup loop preserves freedom from duplicates. -/
lemma dedupLoop_nodup (l : List String) :
    ∀ acc, acc.Nodup → (dedupLoop acc l).Nodup := by
  induction l with
  | nil => exact fun acc h => by simpa [dedupLoop] using h
  | cons t rest ih =>
    intro acc h
    by_cases ht : t ∈ acc
    · simpa [dedupLoop, ht] using ih acc h
    · have hn : (acc ++ [t]).Nodup := by
        simp [List.nodup_append, h, ht]
      simpa [dedupLoop, ht] using ih (acc ++ [t]) hn

/-- The projected window always starts with the anchor. -/
lemma proj_cons (dOk qOk : Bool) (prereqs postreqs : List String) (anchor : String) :
    ∃ t, get_local_graph_state_topics dOk qOk prereqs postreqs anchor = anchor :: t := by
  unfold get_local_graph_state_topics
  by_cases h1 : dOk = false
  · exact ⟨[], by simp [h1]⟩
  by_cases h2 : qOk = false
  · exact ⟨[], by simp [h1, h2]⟩
  obtain ⟨s, hs⟩ := dedupLoop_extends (prereqs ++ postreqs) [anchor]
  refine ⟨s.take 8, ?_⟩
  have hstep : dedupLoop [] (anchor :: (prereqs ++ postreqs)) = anchor :: s := by
    simpa [dedupLoop] using hs
  simp only [h1, h2, if_neg, ite_false, List.cons_append, List.nil_append,
    List.append_assoc]
  simp only [Bool.not_eq_false] at h1 h2
  simp [h1, h2, hstep]

/-- The bottleneck scan is a first-match search over the prerequisites. -/
lemma bottleneckLoop_eq_find (m : List (String × ℚ)) :
    ∀ l : List String, bottleneckLoop m l
      = l.find? (fun p => decide ((dictLookupQ m (pyLower p)).getD 0.1 < 0.6)) := by
  intro l
  induction l with
  | nil => rfl
  | cons p rest ih =>
    by_cases h : (dictLookupQ m (pyLower p)).getD 0.1 < 0.6
    · simp [bottleneckLoop, List.find?, h]
    · simp [bottleneckLoop, List.find?, h, ih]

/-! ### Claims -/

/-- C6: for priors `p ∈ [0,1]` and scores `s ∈ [0,1]`, `update_bkt` computes
the EMA step `p + 0.25·(s − p)` clamped into `[0.05, 0.95]`; its value always
lies in `[0.05, 0.95]`; `update_bkt p p = p` exactly when `p` is within the
clamp bounds; and `update_bkt 0.5 0.2 = 0.425`. -/
theorem C6_update_bkt_clamped_ema (p s : ℚ)
    (hp0 : 0 ≤ p) (hp1 : p ≤ 1) (hs0 : 0 ≤ s) (hs1 : s ≤ 1) :
    update_bkt p s = min (max (p + 0.25 * (s - p)) 0.05) 0.95
    ∧ 0.05 ≤ update_bkt p s ∧ update_bkt p s ≤ 0.95
    ∧ (update_bkt p p = p ↔ 0.05 ≤ p ∧ p ≤ 0.95)
    ∧ update_bkt 0.5 0.2 = 0.425 := by
  refine ⟨rfl, ?_, ?_, ?_, ?_⟩
  · exact le_min (le_max_right _ _) (by norm_num)
  · exact min_le_right _ _
  · have hid : update_bkt p p = min (max p 0.05) 0.95 := by
      simp [update_bkt]
    rw [hid]
    constructor
    · intro h
      refine ⟨?_, ?_⟩
      · rw [← h]; exact le_min (le_max_right _ _) (by norm_num)
      · rw [← h]; exact min_le_right _ _
    · rintro ⟨h1, h2⟩
      rw [max_eq_left h1, min_eq_left h2]
  · norm_num [update_bkt, min_def, max_def]

/-- Witness for C6 at `p = 0.5`, `s = 0.2`. -/
theorem C6_witness : update_bkt 0.5 0.2 = 0.425 :=
  (C6_update_bkt_clamped_ema 0.5 0.2 (by norm_num) (by norm_num) (by norm_num)
    (by norm_num)).2.2.2.2

/-- C4: with the graph store reachable, `get_mastery_bottleneck` returns the
first prerequisite (graph order) whose case-insensitively looked-up mastery,
defaulted to 0.1 when unrecorded, is below 0.6; it returns `none` on an empty
prerequisite list and when every prerequisite is at or above the threshold;
prerequisites `[A(0.8), B(0.3)]` give `B` and `[A(0.9)]` gives `none`. -/
theorem C4_bottleneck_first_below_threshold (prereqs : List String)
    (mastery_map : List (String × ℚ)) :
    get_mastery_bottleneck true prereqs mastery_map
      = prereqs.find? (fun p =>
          decide ((dictLookupQ (mastery_map.map (fun kv => (pyLower kv.1, kv.2)))
            (pyLower p)).getD 0.1 < 0.6))
    ∧ (prereqs = [] → get_mastery_bottleneck true prereqs mastery_map = none)
    ∧ ((∀ p ∈ prereqs,
          ¬ ((dictLookupQ (mastery_map.map (fun kv => (pyLower kv.1, kv.2)))
            (pyLower p)).getD 0.1 < 0.6)) →
        get_mastery_bottleneck true prereqs mastery_map = none)
    ∧ get_mastery_bottleneck true ["A", "B"] [("A", 0.8), ("B", 0.3)] = some "B"
    ∧ get_mastery_bottleneck true ["A"] [("A", 0.9)] = none := by
  have hkey : ∀ l : List String, get_mastery_bottleneck true l mastery_map
      = l.find? (fun p =>
          decide ((dictLookupQ (mastery_map.map (fun kv => (pyLower kv.1, kv.2)))
            (pyLower p)).getD 0.1 < 0.6)) := by
    intro l
    cases l with
    | nil => rfl
    | cons p rest =>
      simp only [get_mastery_bottleneck]
      rw [bottleneckLoop_eq_find]
      simp
  refine ⟨hkey prereqs, ?_, ?_, ?_, ?_⟩
  · rintro rfl; rfl
  · intro hall
    rw [hkey prereqs]
    simp only [List.find?_eq_none, decide_eq_true_eq]
    exact hall
  · have hA : pyLower "A" = "a" := by decide
    have hB : pyLower "B" = "b" := by decide
    simp [get_mastery_bottleneck, bottleneckLoop, dictLookupQ, hA, hB]
    norm_num
  · have hA : pyLower "A" = "a" := by decide
    simp [get_mastery_bottleneck, bottleneckLoop, dictLookupQ, hA]
    norm_num

/-- Witness for C4: the empty-prerequisite and all-mastered implications at
concrete inputs. -/
theorem C4_witness :
    get_mastery_bottleneck true [] [("A", 0.8)] = none
    ∧ get_mastery_bottleneck true ["A"] [("A", 0.9)] = none := by
  refine ⟨(C4_bottleneck_first_below_threshold [] [("A", 0.8)]).2.1 rfl, ?_⟩
  refine (C4_bottleneck_first_below_threshold ["A"] [("A", 0.9)]).2.2.1 ?_
  intro p hp
  have hp' : p = "A" := by simpa using hp
  subst hp'
  have hA : pyLower "A" = "a" := by decide
  simp [dictLookupQ, hA]
  norm_num

/-- C7: the projected window has length at most 9, contains no duplicate
names, and starts with the anchor; an unreachable graph store or an anchor
with no recorded edges yields exactly `[anchor]`. -/
theorem C7_projection_window_shape (dOk qOk : Bool)
    (prereqs postreqs : List String) (anchor : String) :
    (get_local_graph_state_topics dOk qOk prereqs postreqs anchor).length ≤ 9
    ∧ (get_local_graph_state_topics dOk qOk prereqs postreqs anchor).Nodup
    ∧ (get_local_graph_state_topics dOk qOk prereqs postreqs anchor).head? = some anchor
    ∧ (dOk = false → get_local_graph_state_topics dOk qOk prereqs postreqs anchor = [anchor])
    ∧ (prereqs = [] ∧ postreqs = [] →
        get_local_graph_state_topics dOk qOk prereqs postreqs anchor = [anchor]) := by
  refine ⟨?_, ?_, ?_, ?_, ?_⟩
  · unfold get_local_graph_state_topics
    by_cases h1 : dOk = false
    · simp [h1]
    by_cases h2 : qOk = false
    · simp [h1, h2]
    simp only [h1, h2, if_false, ite_false]
    simpa using List.length_take_le 9 _
  · unfold get_local_graph_state_topics
    by_cases h1 : dOk = false
    · simp [h1]
    by_cases h2 : qOk = false
    · simp [h1, h2]
    simp only [h1, h2, if_false, ite_false]
    exact List.Nodup.sublist (List.take_sublist 9 _) (dedupLoop_nodup _ [] List.nodup_nil)
  · obtain ⟨t, ht⟩ := proj_cons dOk qOk prereqs postreqs anchor
    rw [ht]; rfl
  · intro h
    simp [get_local_graph_state_topics, h]
  · rintro ⟨rfl, rfl⟩
    unfold get_local_graph_state_topics
    by_cases h1 : dOk = false
    · simp [h1]
    by_cases h2 : qOk = false
    · simp [h1, h2]
    simp [h1, h2, dedupLoop]

/-- Witness for C7: the two `[anchor]` implications at concrete inputs. -/
theorem C7_witness :
    get_local_graph_state_topics false true ["P"] [] "T" = ["T"]
    ∧ get_local_graph_state_topics true true [] [] "T" = ["T"] :=
  ⟨(C7_projection_window_shape false true ["P"] [] "T").2.2.2.1 rfl,
   (C7_projection_window_shape true true [] [] "T").2.2.2.2 ⟨rfl, rfl⟩⟩

/-- C2: neither path of `get_next_action` emits a `"topic_index"` key, so the
orchestrator's `action.get("topic_index", 0)` is always 0 and the topic its
selection block emits is always the anchor sitting at index 0 of the padded
projection window — in `start_session` and in the policy path of
`submit_answer`, whose selection code is identical. -/
theorem C2_topic_index_absent_selects_anchor (ml : Bool) (pr : ℤ) (obs : List ℚ)
    (rng : Fin 3) (dOk qOk : Bool) (prereqs postreqs : List String) (anchor : String) :
    dictLookup (get_next_action ml pr obs rng) "topic_index" = none
    ∧ selectTopic (get_next_action ml pr obs rng)
        (padTo9 (get_local_graph_state_topics dOk qOk prereqs postreqs anchor))
        anchor = anchor := by
  refine ⟨get_next_action_topic_index_none ml pr obs rng, ?_⟩
  obtain ⟨t, ht⟩ := proj_cons dOk qOk prereqs postreqs anchor
  have hidx : dictGetInt (get_next_action ml pr obs rng) "topic_index" 0 = 0 := by
    simp [dictGetInt, get_next_action_topic_index_none]
  have hpad : padTo9 (get_local_graph_state_topics dOk qOk prereqs postreqs anchor)
      = anchor :: (t ++ List.replicate (9 - (anchor :: t).length) PAD_NAME) := by
    rw [ht]; rfl
  simp only [selectTopic, hidx, hpad, Int.toNat_zero, List.getD_cons_zero]
  split <;> rfl

/-- C1: at a failing input — policy artifact unloaded, valid 9-length
observation, RNG draw 2 — `get_next_action` returns a dict with no
`"topic_index"`/`"topic_slot"` entry at all, whose `raw_action` is the single
drawn bucket (2, paired with difficulty `"Hard"`), not a
`topic_slot*3 + difficulty` composite over `[0,27)`; the model path
(`predict = 2`) likewise returns `raw_action = bucket` and no topic slot.
This contradicts the function's own docstring
(`Returns: {"topic_index": int, "difficulty": str}`) and the callers'
`action.get("topic_index", 0)`. -/
theorem C1_get_next_action_at_failing_input :
    dictLookup (get_next_action false 0 (List.replicate 9 0.5) 2) "topic_index" = none
    ∧ dictLookup (get_next_action false 0 (List.replicate 9 0.5) 2) "topic_slot" = none
    ∧ dictLookup (get_next_action false 0 (List.replicate 9 0.5) 2) "raw_action"
        = some (DVal.num 2)
    ∧ dictLookup (get_next_action false 0 (List.replicate 9 0.5) 2) "difficulty"
        = some (DVal.str "Hard")
    ∧ dictLookup (get_next_action true 2 (List.replicate 9 0.5) 0) "topic_index" = none
    ∧ dictLookup (get_next_action true 2 (List.replicate 9 0.5) 0) "raw_action"
        = some (DVal.num 2) := by
  decide

/-- C9 counterexample: the fallback of `get_next_action` makes a single draw
`r ∈ {0, 1, 2}` (the full range of `random.randint(0, 2)`); at each draw the
difficulty is pinned to the draw's own bucket and no topic-slot entry exists,
so the claimed independent `[0,9) × {Easy, Medium, Hard}` outcome space
(e.g. the pair `(bucket 0, "Hard")`) is unreachable. -/
theorem C9_counterexample_fallback_not_independent :
    dictLookup (get_next_action false 0 (List.replicate 9 0.5) 0) "difficulty"
      = some (DVal.str "Easy")
    ∧ dictLookup (get_next_action false 0 (List.replicate 9 0.5) 1) "difficulty"
      = some (DVal.str "Medium")
    ∧ dictLookup (get_next_action false 0 (List.replicate 9 0.5) 2) "difficulty"
      = some (DVal.str "Hard")
    ∧ dictLookup (get_next_action false 0 (List.replicate 9 0.5) 0) "bucket_index"
      = some (DVal.num 0)
    ∧ dictLookup (get_next_action false 0 (List.replicate 9 0.5) 0) "topic_index" = none
    ∧ dictLookup (get_next_action false 0 (List.replicate 9 0.5) 1) "topic_index" = none
    ∧ dictLookup (get_next_action false 0 (List.replicate 9 0.5) 2) "topic_index" = none := by
  decide

/-- C9 amended: whenever the policy artifact is not loaded or the observation
is not of length 9, the fallback makes one uniform draw `r ∈ {0,1,2}` and
returns bucket `r`, difficulty `diff_map[r]` (fully determined by the draw)
and `raw_action = r`; no topic slot is drawn or returned. -/
theorem C9_fallback_single_draw (ml : Bool) (pr : ℤ) (obs : List ℚ) (r : Fin 3)
    (h : ml = false ∨ obs.length ≠ 9) :
    get_next_action ml pr obs r =
      [("action_type", DVal.str "bucket_selection_fallback"),
       ("bucket_index", DVal.num r.val),
       ("difficulty", DVal.str ((diff_map r.val).getD "Medium")),
       ("raw_action", DVal.num r.val)]
    ∧ ((diff_map r.val).getD "Medium"
        = if r.val = 0 then "Easy" else if r.val = 1 then "Medium" else "Hard")
    ∧ dictLookup (get_next_action ml pr obs r) "topic_index" = none := by
  refine ⟨?_, ?_, get_next_action_topic_index_none ml pr obs r⟩
  · unfold get_next_action
    rw [if_pos h]
  · fin_cases r <;> rfl

/-- Witness for C9 amended at draw 1 on a 9-length observation with no model. -/
theorem C9_witness :
    get_next_action false 0 (List.replicate 9 0.5) 1 =
      [("action_type", DVal.str "bucket_selection_fallback"),
       ("bucket_index", DVal.num 1),
       ("difficulty", DVal.str "Medium"),
       ("raw_action", DVal.num 1)] :=
  ((C9_fallback_single_draw false 0 (List.replicate 9 0.5) 1 (Or.inl rfl)).1).trans
    (by decide)

/-- C8 counterexample: a failed load attempt (`PPO.load` raising, or the
artifact file missing) leaves the `_model` cache empty, so the very next call
performs another load attempt — the claimed at-most-once behaviour is false. -/
theorem C8_counterexample_failed_load_retries :
    (load_model none LoadOutcome.failure).2 = true
    ∧ (load_model (load_model none LoadOutcome.failure).1 LoadOutcome.failure).2 = true
    ∧ (load_model none LoadOutcome.missing).2 = true
    ∧ (load_model (load_model none LoadOutcome.missing).1 LoadOutcome.missing).2 = true := by
  decide

/-- C8 amended: a call to `load_model` performs a load attempt exactly when
the cache is empty; a cached model is returned unchanged without an attempt;
after a successful load no later call re-attempts; after a failed load the
cache stays empty and the next call attempts the load again (each failed call
meanwhile leaves the agent on the fallback). -/
theorem C8_load_memoized_only_on_success (st : Option ℕ) (env env2 : LoadOutcome) :
    ((load_model st env).2 = true ↔ st = none)
    ∧ (∀ m, st = some m → load_model st env = (some m, false))
    ∧ (∀ m, st = none → env = LoadOutcome.success m →
        load_model (load_model st env).1 env2 = (some m, false))
    ∧ (st = none → (env = LoadOutcome.failure ∨ env = LoadOutcome.missing) →
        (load_model st env).1 = none
        ∧ (load_model (load_model st env).1 env2).2 = true) := by
  cases st <;> cases env <;> cases env2 <;> simp [load_model]

/-- Witness for C8 amended: success memoizes, failure retries. -/
theorem C8_witness :
    load_model (load_model none (LoadOutcome.success 7)).1 LoadOutcome.failure
      = (some 7, false)
    ∧ (load_model none LoadOutcome.failure).1 = none
    ∧ (load_model (load_model none LoadOutcome.failure).1 LoadOutcome.failure).2 = true := by
  have h := C8_load_memoized_only_on_success none (LoadOutcome.success 7) LoadOutcome.failure
  have h2 := C8_load_memoized_only_on_success none LoadOutcome.failure LoadOutcome.failure
  exact ⟨h.2.2.1 7 rfl rfl, (h2.2.2.2 rfl (Or.inl rfl)).1, (h2.2.2.2 rfl (Or.inl rfl)).2⟩

/-- C3 counterexample: on an unparseable grading response (`"garbage"`), the
attempt is scored 0.4 — not 0 as claimed — though the raw text is indeed
preserved as the feedback. -/
theorem C3_counterexample_parse_failure_score :
    (gradeResult GradeParse.parseError "garbage").1 = 0.4
    ∧ (gradeResult GradeParse.parseError "garbage").1 ≠ 0
    ∧ (gradeResult GradeParse.parseError "garbage").2.1 = "garbage" := by
  have hc : containsCorrect "garbage" = false := by decide
  refine ⟨by simp [gradeResult, hc], ?_, by simp [gradeResult, hc]⟩
  simp [gradeResult, hc]
  norm_num

/-- C3 amended: when the grading response cannot be parsed as a JSON dict,
`submit_answer` scores the attempt 0.4 — or 0.8, marked correct, when the
lowered raw text contains `"correct"` — always preserving the raw response
text as the feedback, and produces a result rather than aborting the
session. -/
theorem C3_parse_failure_fallback (p : GradeParse) (clean_text : String)
    (h : p = GradeParse.nonDict ∨ p = GradeParse.parseError) :
    (gradeResult p clean_text).2.1 = clean_text
    ∧ ((gradeResult p clean_text).1 = 0.4 ∨ (gradeResult p clean_text).1 = 0.8)
    ∧ ((gradeResult p clean_text).1 = 0.8 ↔ containsCorrect clean_text = true)
    ∧ (gradeResult p clean_text).2.2 = containsCorrect clean_text := by
  rcases h with rfl | rfl <;>
    by_cases hc : containsCorrect clean_text <;>
      simp [gradeResult, hc] <;> norm_num

/-- Witness for C3 amended: a non-dict response containing "correct". -/
theorem C3_witness :
    (gradeResult GradeParse.nonDict "All correct!").2.1 = "All correct!"
    ∧ (gradeResult GradeParse.nonDict "All correct!").1 = 0.8 := by
  have h := C3_parse_failure_fallback GradeParse.nonDict "All correct!" (Or.inl rfl)
  exact ⟨h.1, h.2.2.1.mpr (by decide)⟩

/-- C10: on the dict path of the grading block, a raw score strictly above 1
is divided by 10, a raw score at most 1 is kept, a missing `"score"` key
yields 0, and e.g. a raw 7 becomes 0.7. -/
theorem C10_score_normalization (sc : Option ℚ) (fb : Option String)
    (clean_text : String) :
    (∀ r : ℚ, sc = some r → 1 < r →
        (gradeResult (GradeParse.dict sc fb) clean_text).1 = r / 10)
    ∧ (∀ r : ℚ, sc = some r → r ≤ 1 →
        (gradeResult (GradeParse.dict sc fb) clean_text).1 = r)
    ∧ (sc = none → (gradeResult (GradeParse.dict sc fb) clean_text).1 = 0)
    ∧ (gradeResult (GradeParse.dict (some 7) fb) clean_text).1 = 0.7 := by
  refine ⟨?_, ?_, ?_, ?_⟩
  · rintro r rfl h
    simp [gradeResult, h]
  · rintro r rfl h
    simp [gradeResult, not_lt.mpr h]
  · rintro rfl
    norm_num [gradeResult]
  · norm_num [gradeResult]

/-- Witness for C10 at raw scores 7, 0.5 and a missing score key. -/
theorem C10_witness :
    (gradeResult (GradeParse.dict (some 7) none) "x").1 = 0.7
    ∧ (gradeResult (GradeParse.dict (some 0.5) none) "x").1 = 0.5
    ∧ (gradeResult (GradeParse.dict none none) "x").1 = 0 := by
  refine ⟨?_, ?_, ?_⟩
  · exact ((C10_score_normalization (some 7) none "x").1 7 rfl (by norm_num)).trans
      (by norm_num)
  · exact (C10_score_normalization (some 0.5) none "x").2.1 0.5 rfl (by norm_num)
  · exact (C10_score_normalization none none "x").2.2.1 rfl

/-- The `correct` flag produced by the grading block agrees with
`score ≥ 0.6` on every path. -/
lemma gradeResult_correct_iff (p : GradeParse) (ct : String) :
    (gradeResult p ct).2.2 = true ↔ 0.6 ≤ (gradeResult p ct).1 := by
  cases p with
  | dict sc fb =>
    simp [gradeResult]
  | nonDict =>
    by_cases hc : containsCorrect ct <;> simp [gradeResult, hc] <;> norm_num
  | parseError =>
    by_cases hc : containsCorrect ct <;> simp [gradeResult, hc] <;> norm_num

/-- C5: in `submit_answer`'s next-action step, a graded score below 0.6 with
a remediation bottleneck (a non-empty topic, Python truthiness) forces that
topic as the next step at difficulty Easy without consulting the Policy
Agent; a score at or above 0.6, or an absent bottleneck, consults the Policy
Agent on the window recomputed around the just-attempted topic. -/
theorem C5_remediation_overrides_policy (p : GradeParse) (clean_text : String)
    (bottleneck : Option String) (topic_key : String) :
    ((gradeResult p clean_text).1 < 0.6 →
      ∀ t, bottleneck = some t → t ≠ "" →
        nextActionDecision (gradeResult p clean_text).2.2 bottleneck topic_key
          = NextStep.remediate t "Easy")
    ∧ (0.6 ≤ (gradeResult p clean_text).1 →
        nextActionDecision (gradeResult p clean_text).2.2 bottleneck topic_key
          = NextStep.consultPolicy topic_key)
    ∧ (bottleneck = none →
        nextActionDecision (gradeResult p clean_text).2.2 bottleneck topic_key
          = NextStep.consultPolicy topic_key) := by
  refine ⟨?_, ?_, ?_⟩
  · intro hs t hb ht
    have hc : (gradeResult p clean_text).2.2 = false := by
      rcases Bool.eq_false_or_eq_true (gradeResult p clean_text).2.2 with h | h
      · exact absurd ((gradeResult_correct_iff p clean_text).mp h) (not_le.mpr hs)
      · exact h
    subst hb
    simp [nextActionDecision, hc, ht]
  · intro hs
    have hc : (gradeResult p clean_text).2.2 = true :=
      (gradeResult_correct_iff p clean_text).mpr hs
    simp [nextActionDecision, hc]
  · rintro rfl
    cases h : (gradeResult p clean_text).2.2 <;> simp [nextActionDecision, h]

/-- Witness for C5: a failed attempt (score 0.2) with bottleneck "Loops"
remediates to ("Loops", Easy); a passed attempt (score 0.9) consults the
policy around the attempted topic. -/
theorem C5_witness :
    nextActionDecision (gradeResult (GradeParse.dict (some 0.2) none) "x").2.2
        (some "Loops") "Recursion" = NextStep.remediate "Loops" "Easy"
    ∧ nextActionDecision (gradeResult (GradeParse.dict (some 0.9) none) "x").2.2
        (some "Loops") "Recursion" = NextStep.consultPolicy "Recursion" := by
  have h1 := C5_remediation_overrides_policy (GradeParse.dict (some 0.2) none) "x"
    (some "Loops") "Recursion"
  have h2 := C5_remediation_overrides_policy (GradeParse.dict (some 0.9) none) "x"
    (some "Loops") "Recursion"
  refine ⟨h1.1 ?_ "Loops" rfl ?_, h2.2.1 ?_⟩
  · norm_num [gradeResult]
  · decide
  · norm_num [gradeResult]

